import Mathlib

/-!
Shallow embedding of the BlackholeSimulator physics core
(`src/include/Vec2.h`, `src/include/GravityBody.h`, `src/src/GravityBody.cpp`,
`src/src/GravityGrid.cpp`, `src/src/GravitySimulation.cpp`).

C++ `float` values are modelled as real numbers; `std::vector` collections as
lists; the grid's 2D force array as a function from integer indices.
-/

/-- 2D vector (`Vec2` in `src/include/Vec2.h`): two float components. -/
structure Vec2 where
  x : ℝ
  y : ℝ

namespace Vec2

/-- Default constructor `Vec2()` : zero vector. -/
def zero : Vec2 := ⟨0, 0⟩

/-- `operator+` : componentwise addition. -/
def add (a b : Vec2) : Vec2 := ⟨a.x + b.x, a.y + b.y⟩

/-- `operator-` : componentwise subtraction. -/
def sub (a b : Vec2) : Vec2 := ⟨a.x - b.x, a.y - b.y⟩

/-- `operator*(float)` : scalar scaling. -/
def smul (a : Vec2) (s : ℝ) : Vec2 := ⟨a.x * s, a.y * s⟩

/-- Componentwise division by a scalar (used as `force / mass` in
`GravityBody::applyForce`; the componentwise meaning of the expression). -/
noncomputable def sdiv (a : Vec2) (s : ℝ) : Vec2 := ⟨a.x / s, a.y / s⟩

instance : Add Vec2 := ⟨add⟩
instance : Sub Vec2 := ⟨sub⟩
instance : Zero Vec2 := ⟨zero⟩
instance : Neg Vec2 := ⟨fun v => ⟨-v.x, -v.y⟩⟩
instance : HMul Vec2 ℝ Vec2 := ⟨smul⟩
noncomputable instance : HDiv Vec2 ℝ Vec2 := ⟨sdiv⟩

/-- `magnitudeSquared()` : `x*x + y*y`. -/
def magnitudeSquared (a : Vec2) : ℝ := a.x * a.x + a.y * a.y

/-- `magnitude()` : `sqrt(magnitudeSquared())`. -/
noncomputable def magnitude (a : Vec2) : ℝ := Real.sqrt a.magnitudeSquared

/-- `normalized()` : unit vector in the same direction, or the zero vector
when the magnitude is not positive. -/
noncomputable def normalized (a : Vec2) : Vec2 :=
  let mag := a.magnitude
  if mag > 0 then ⟨a.x / mag, a.y / mag⟩ else ⟨0, 0⟩

@[simp] theorem add_def (a b : Vec2) : a + b = ⟨a.x + b.x, a.y + b.y⟩ := rfl

@[simp] theorem sub_def (a b : Vec2) : a - b = ⟨a.x - b.x, a.y - b.y⟩ := rfl

@[simp] theorem smul_def (a : Vec2) (s : ℝ) : a * s = ⟨a.x * s, a.y * s⟩ := rfl

@[simp] theorem sdiv_def (a : Vec2) (s : ℝ) : a / s = ⟨a.x / s, a.y / s⟩ := rfl

@[simp] theorem neg_def (a : Vec2) : -a = ⟨-a.x, -a.y⟩ := rfl

@[simp] theorem zero_def : (0 : Vec2) = ⟨0, 0⟩ := rfl

theorem ext_iff {a b : Vec2} : a = b ↔ a.x = b.x ∧ a.y = b.y := by
  cases a; cases b; simp

instance : AddCommMonoid Vec2 where
  add_assoc a b c := by simp [ext_iff]; constructor <;> ring
  zero_add a := by simp [ext_iff]
  add_zero a := by simp [ext_iff]
  add_comm a b := by simp [ext_iff]; constructor <;> ring
  nsmul := nsmulRec

end Vec2

/-- Gravitational body (`src/include/GravityBody.h`): position, velocity,
mass and a display radius. -/
structure GravityBody where
  position : Vec2
  velocity : Vec2
  mass : ℝ
  radius : ℝ

namespace GravityBody

/-- The constructor `GravityBody(position, mass, radius)`: stores the
arguments as given and zeroes the velocity (no validation of the mass). -/
def create (position : Vec2) (mass : ℝ) (radius : ℝ) : GravityBody :=
  ⟨position, ⟨0, 0⟩, mass, radius⟩

/-- `setVelocity`. -/
def setVelocity (b : GravityBody) (newVelocity : Vec2) : GravityBody :=
  { b with velocity := newVelocity }

/-- `setPosition`. -/
def setPosition (b : GravityBody) (newPosition : Vec2) : GravityBody :=
  { b with position := newPosition }

/-- `GravityBody::calculateGravitationalForce(point, G)`
(`src/src/GravityBody.cpp` lines 7-25): force toward this body felt by a
unit-mass probe at `point`, with min-distance clamp 1 and max-force clamp
1000. -/
noncomputable def calculateGravitationalForce (b : GravityBody) (point : Vec2)
    (gravitationalConstant : ℝ) : Vec2 :=
  let direction := b.position - point
  let distanceSquared0 := direction.magnitudeSquared
  let minDistance : ℝ := 1
  let distanceSquared :=
    if distanceSquared0 < minDistance * minDistance then minDistance * minDistance
    else distanceSquared0
  let forceMagnitude0 := gravitationalConstant * b.mass / distanceSquared
  let maxForce : ℝ := 1000
  let forceMagnitude := min forceMagnitude0 maxForce
  direction.normalized * forceMagnitude

/-- `GravityBody::calculateForceFrom(other, G)`
(`src/src/GravityBody.cpp` lines 27-45): pairwise force on this body from
`other`, with min-distance clamp 10 and max-force clamp 5000. -/
noncomputable def calculateForceFrom (b : GravityBody) (other : GravityBody)
    (gravitationalConstant : ℝ) : Vec2 :=
  let direction := other.position - b.position
  let distanceSquared0 := direction.magnitudeSquared
  let minDistance : ℝ := 10
  let distanceSquared :=
    if distanceSquared0 < minDistance * minDistance then minDistance * minDistance
    else distanceSquared0
  let forceMagnitude0 := gravitationalConstant * b.mass * other.mass / distanceSquared
  let maxForce : ℝ := 5000
  let forceMagnitude := min forceMagnitude0 maxForce
  direction.normalized * forceMagnitude

/-- `GravityBody::applyForce(force, dt)` (`src/src/GravityBody.cpp` lines
47-58): velocity integration `v = (v0 + (F/m)*dt) * 0.9999`. -/
noncomputable def applyForce (b : GravityBody) (force : Vec2) (deltaTime : ℝ) :
    GravityBody :=
  let acceleration := force / b.mass
  let velocity1 := b.velocity + acceleration * deltaTime
  let dampingFactor : ℝ := 0.9999
  { b with velocity := velocity1 * dampingFactor }

/-- `GravityBody::updatePosition(dt)`: `x = x0 + v*dt`. -/
noncomputable def updatePosition (b : GravityBody) (deltaTime : ℝ) : GravityBody :=
  { b with position := b.position + b.velocity * deltaTime }

end GravityBody

/-- Gravity grid (`src/include/GravityGrid.h`): world dimensions, grid
dimensions, spacing, and the 2D array of force vectors, modelled as a
function from (row y, column x) integer indices; only indices inside
`[0, gridWidth) × [0, gridHeight)` are ever read through the accessors. -/
structure GravityGrid where
  worldWidth : ℝ
  worldHeight : ℝ
  gridWidth : ℤ
  gridHeight : ℤ
  gridSpacing : ℝ
  forces : ℤ → ℤ → Vec2

namespace GravityGrid

/-- `GravityGrid::isValidGridPoint` (`src/src/GravityGrid.cpp` lines 82-84). -/
def isValidGridPoint (g : GravityGrid) (gridX gridY : ℤ) : Bool :=
  0 ≤ gridX && gridX < g.gridWidth && 0 ≤ gridY && gridY < g.gridHeight

/-- `GravityGrid::gridToWorld` (`src/src/GravityGrid.cpp` lines 75-80). -/
noncomputable def gridToWorld (g : GravityGrid) (gridX gridY : ℤ) : Vec2 :=
  ⟨(gridX : ℝ) / ((g.gridWidth : ℝ) - 1) * g.worldWidth,
   (gridY : ℝ) / ((g.gridHeight : ℝ) - 1) * g.worldHeight⟩

/-- `GravityGrid::updateGrid(bodies, G)` (`src/src/GravityGrid.cpp` lines
24-48): every in-range cell is overwritten with the sum, accumulated left
to right starting from zero, of each body's `calculateGravitationalForce`
at the cell's world position. -/
noncomputable def updateGrid (g : GravityGrid) (bodies : List GravityBody)
    (gravitationalConstant : ℝ) : GravityGrid :=
  { g with forces := fun y x =>
      if g.isValidGridPoint x y then
        bodies.foldl (fun totalForce body =>
          totalForce + body.calculateGravitationalForce (g.gridToWorld x y)
            gravitationalConstant) Vec2.zero
      else g.forces y x }

/-- `GravityGrid::getForceAtGridPoint` (`src/src/GravityGrid.cpp` lines
50-55): bounds-checked lookup, zero vector when out of range. -/
def getForceAtGridPoint (g : GravityGrid) (gridX gridY : ℤ) : Vec2 :=
  if g.isValidGridPoint gridX gridY then g.forces gridY gridX
  else ⟨0, 0⟩

/-- `GravityGrid::getForceMagnitudeAtGridPoint` (`src/src/GravityGrid.cpp`
lines 57-62). -/
noncomputable def getForceMagnitudeAtGridPoint (g : GravityGrid) (gridX gridY : ℤ) : ℝ :=
  if g.isValidGridPoint gridX gridY then (g.forces gridY gridX).magnitude
  else 0

end GravityGrid

/-- `static_cast<int>` on a float: truncation toward zero. -/
noncomputable def floatToInt (x : ℝ) : ℤ := if 0 ≤ x then ⌊x⌋ else ⌈x⌉

/-- `GravityGrid::GravityGrid(width, height, gridResolution)`
(`src/src/GravityGrid.cpp` lines 5-22): derives grid dimensions from world
size and resolution, floors them at 10, computes the spacing, and zeroes
every force cell. -/
noncomputable def GravityGrid.create (width height : ℝ) (gridResolution : ℤ) :
    GravityGrid :=
  let gridWidth := max (floatToInt (width * (gridResolution : ℝ) / 100)) 10
  let gridHeight := max (floatToInt (height * (gridResolution : ℝ) / 100)) 10
  { worldWidth := width
    worldHeight := height
    gridWidth := gridWidth
    gridHeight := gridHeight
    gridSpacing := width / ((gridWidth : ℝ) - 1)
    forces := fun _ _ => Vec2.zero }

/-- Simulation coordinator state (`src/include/GravitySimulation.h`). -/
structure GravitySimulation where
  bodies : List GravityBody
  gravityGrid : GravityGrid
  worldWidth : ℝ
  worldHeight : ℝ
  gravitationalConstant : ℝ
  needsGridUpdate : Bool

namespace GravitySimulation

/-- `GravitySimulation::GravitySimulation(worldWidth, worldHeight,
gridResolution)` (`src/src/GravitySimulation.cpp` lines 5-10). -/
noncomputable def create (worldWidth worldHeight : ℝ) (gridResolution : ℤ) :
    GravitySimulation :=
  { bodies := []
    gravityGrid := GravityGrid.create worldWidth worldHeight gridResolution
    worldWidth := worldWidth
    worldHeight := worldHeight
    gravitationalConstant := 80
    needsGridUpdate := true }

/-- `GravitySimulation::addBody` (`src/src/GravitySimulation.cpp` lines
39-42): push the body and mark the grid stale. -/
def addBody (s : GravitySimulation) (body : GravityBody) : GravitySimulation :=
  { s with bodies := s.bodies ++ [body], needsGridUpdate := true }

/-- `GravitySimulation::clearBodies` (`src/src/GravitySimulation.cpp` lines
44-47). -/
def clearBodies (s : GravitySimulation) : GravitySimulation :=
  { s with bodies := [], needsGridUpdate := true }

/-- `GravitySimulation::getGravityGrid` (`src/include/GravitySimulation.h`
lines 73-75): returns the grid as is, without consulting
`needsGridUpdate`. -/
def getGravityGrid (s : GravitySimulation) : GravityGrid := s.gravityGrid

/-- Fallback used to make list indexing total; the simulation loops only
index inside the list, so it is never reached. -/
def bodyAt (bodies : List GravityBody) (i : ℕ) : GravityBody :=
  bodies.getD i (GravityBody.create ⟨0, 0⟩ 0 0)

/-- First loop of `GravitySimulation::updateBodies`
(`src/src/GravitySimulation.cpp` lines 152-166): `forces[i]` accumulates
`bodies[i]->calculateForceFrom(*bodies[j])` over all `j ≠ i`, read from the
body positions as they are at the start of the step. -/
noncomputable def netForces (bodies : List GravityBody)
    (gravitationalConstant : ℝ) : List Vec2 :=
  (List.range bodies.length).map fun i =>
    (List.range bodies.length).foldl
      (fun acc j =>
        if i ≠ j then
          acc + (bodyAt bodies i).calculateForceFrom (bodyAt bodies j)
            gravitationalConstant
        else acc)
      Vec2.zero

/-- Boundary handling inside `GravitySimulation::updateBodies`
(`src/src/GravitySimulation.cpp` lines 168-192): on each axis whose
position coordinate left `[0, world extent]`, reflect the velocity
component with factor 0.8 and clamp the position back into range.  The
code writes position and velocity back only when a bounce happened; when
no bounce happened they are unchanged, so writing unconditionally is the
same function. -/
noncomputable def handleBoundary (worldWidth worldHeight : ℝ)
    (b : GravityBody) : GravityBody :=
  let pos := b.position
  let vel := b.velocity
  let newXPos := if pos.x < 0 ∨ pos.x > worldWidth
    then max 0 (min worldWidth pos.x) else pos.x
  let newXVel := if pos.x < 0 ∨ pos.x > worldWidth
    then -vel.x * 0.8 else vel.x
  let newYPos := if pos.y < 0 ∨ pos.y > worldHeight
    then max 0 (min worldHeight pos.y) else pos.y
  let newYVel := if pos.y < 0 ∨ pos.y > worldHeight
    then -vel.y * 0.8 else vel.y
  (b.setPosition ⟨newXPos, newYPos⟩).setVelocity ⟨newXVel, newYVel⟩

/-- `GravitySimulation::updateBodies(dt)` (`src/src/GravitySimulation.cpp`
lines 152-194): compute all pairwise forces first, then for each body apply
`applyForce`, `updatePosition` and the boundary policy. -/
noncomputable def updateBodies (s : GravitySimulation) (deltaTime : ℝ) :
    GravitySimulation :=
  let forces := netForces s.bodies s.gravitationalConstant
  { s with bodies := (s.bodies.zip forces).map (fun bf =>
      handleBoundary s.worldWidth s.worldHeight
        ((bf.1.applyForce bf.2 deltaTime).updatePosition deltaTime)) }

/-- `GravitySimulation::update(dt)` (`src/src/GravitySimulation.cpp` lines
23-29): advance body physics, then recompute the whole grid. -/
noncomputable def update (s : GravitySimulation) (deltaTime : ℝ) :
    GravitySimulation :=
  let s1 := s.updateBodies deltaTime
  { s1 with gravityGrid :=
      s1.gravityGrid.updateGrid s1.bodies s1.gravitationalConstant }

/-- The seven default bodies created by
`GravitySimulation::createDefaultBodies` (`src/src/GravitySimulation.cpp`
lines 49-150): the sun plus six planets, each planet at
`(centerX + distance, centerY)` with tangential speed
`sqrt(G*5000/distance)`. -/
noncomputable def defaultBodies (worldWidth worldHeight
    gravitationalConstant : ℝ) : List GravityBody :=
  let centerX := worldWidth * 0.5
  let centerY := worldHeight * 0.5
  let gTimesMSun := gravitationalConstant * 5000
  let planet := fun (distance mass radius : ℝ) =>
    (GravityBody.create ⟨centerX + distance, centerY⟩ mass radius).setVelocity
      ⟨0, Real.sqrt (gTimesMSun / distance)⟩
  [(GravityBody.create ⟨centerX, centerY⟩ 5000 15).setVelocity ⟨0, 0⟩,
   planet 60 8 2.5,
   planet 85 18 3.8,
   planet 110 20 4.0,
   planet 140 10 3.2,
   planet 220 80 8.0,
   planet 300 60 7.0]

/-- `GravitySimulation::createDefaultBodies`: seven successive `addBody`
calls. -/
noncomputable def createDefaultBodies (s : GravitySimulation) :
    GravitySimulation :=
  (defaultBodies s.worldWidth s.worldHeight s.gravitationalConstant).foldl
    addBody s

/-- `GravitySimulation::initialize` (`src/src/GravitySimulation.cpp` lines
12-21): create the default bodies (appending to whatever is already
there), run the first grid calculation, and clear the stale flag. -/
noncomputable def initDefault (s : GravitySimulation) : GravitySimulation :=
  let s1 := s.createDefaultBodies
  { s1 with
    gravityGrid := s1.gravityGrid.updateGrid s1.bodies s1.gravitationalConstant
    needsGridUpdate := false }

end GravitySimulation

/-! Concrete example values used as inputs by witnesses and
counterexamples. -/

/-- A concrete grid: 160×120 cells over an 800×600 world, every cell
holding the vector ⟨3, 4⟩. -/
noncomputable def gridExample : GravityGrid :=
  ⟨800, 600, 160, 120, 800 / 159, fun _ _ => ⟨3, 4⟩⟩

/-- A freshly constructed simulation (grid cells all zero) with one body
added through `addBody` and no resample since. -/
noncomputable def staleSim : GravitySimulation :=
  (GravitySimulation.create 800 600 20).addBody (GravityBody.create ⟨10, 0⟩ 100 5)

/-! Helper lemmas shared by the claim theorems. -/

theorem Vec2.magnitudeSquared_nonneg (v : Vec2) : 0 ≤ v.magnitudeSquared :=
  add_nonneg (mul_self_nonneg v.x) (mul_self_nonneg v.y)

theorem Vec2.magnitude_nonneg (v : Vec2) : 0 ≤ v.magnitude :=
  Real.sqrt_nonneg _

theorem Vec2.magnitudeSquared_neg (v : Vec2) :
    (-v).magnitudeSquared = v.magnitudeSquared := by
  simp only [neg_def, magnitudeSquared]; ring

theorem Vec2.magnitude_neg (v : Vec2) : (-v).magnitude = v.magnitude := by
  simp only [magnitude, magnitudeSquared_neg]

theorem Vec2.magnitude_mk_zero (a : ℝ) : (⟨a, 0⟩ : Vec2).magnitude = |a| := by
  simp [magnitude, magnitudeSquared, Real.sqrt_mul_self_eq_abs]

theorem Vec2.neg_smul_eq (v : Vec2) (s : ℝ) : (-v) * s = -(v * s) := by
  simp only [smul_def, neg_def, ext_iff]; constructor <;> ring

theorem Vec2.normalized_eq (v : Vec2) :
    v.normalized = if v.magnitude > 0
      then (⟨v.x / v.magnitude, v.y / v.magnitude⟩ : Vec2) else ⟨0, 0⟩ := rfl

theorem Vec2.magnitude_mk_zero_zero : (⟨0, 0⟩ : Vec2).magnitude = 0 := by
  simp [magnitude, magnitudeSquared]

theorem Vec2.normalized_neg (v : Vec2) : (-v).normalized = -v.normalized := by
  rw [normalized_eq, normalized_eq, magnitude_neg]
  split_ifs with h
  · simp only [neg_def, ext_iff]; constructor <;> rw [neg_div]
  · simp [ext_iff]

theorem Vec2.magnitude_smul (v : Vec2) (s : ℝ) :
    (v * s).magnitude = v.magnitude * |s| := by
  have h : (v * s).magnitudeSquared = v.magnitudeSquared * s ^ 2 := by
    simp only [smul_def, magnitudeSquared]; ring
  rw [magnitude, h, Real.sqrt_mul (magnitudeSquared_nonneg v),
    Real.sqrt_sq_eq_abs, magnitude]

theorem Vec2.magnitude_normalized (v : Vec2) :
    v.normalized.magnitude = if v.magnitude > 0 then 1 else 0 := by
  rw [normalized_eq]
  by_cases h : v.magnitude > 0
  · rw [if_pos h, if_pos h]
    have hsq : 0 < v.magnitudeSquared := Real.sqrt_pos.mp h
    have hmm : v.magnitude * v.magnitude = v.magnitudeSquared :=
      Real.mul_self_sqrt (le_of_lt hsq)
    have hexp : (⟨v.x / v.magnitude, v.y / v.magnitude⟩ : Vec2).magnitudeSquared
        = v.magnitudeSquared / (v.magnitude * v.magnitude) := by
      simp only [magnitudeSquared]; ring
    rw [magnitude, hexp, hmm, div_self (ne_of_gt hsq), Real.sqrt_one]
  · rw [if_neg h, if_neg h, magnitude_mk_zero_zero]

theorem Vec2.magnitude_normalized_le_one (v : Vec2) :
    v.normalized.magnitude ≤ 1 := by
  rw [magnitude_normalized]; split_ifs <;> norm_num

theorem Vec2.sub_eq_neg_sub (a b : Vec2) : a - b = -(b - a) := by
  simp only [sub_def, neg_def, ext_iff]; constructor <;> ring

theorem sqrt_hundred : Real.sqrt 100 = 10 := by
  rw [show (100 : ℝ) = 10 ^ 2 by norm_num,
    Real.sqrt_sq (by norm_num : (0 : ℝ) ≤ 10)]

theorem foldl_add_eq_sum {α : Type} (f : α → Vec2) (l : List α) (init : Vec2) :
    l.foldl (fun acc a => acc + f a) init = init + (l.map f).sum := by
  induction l generalizing init with
  | nil => simp
  | cons a t ih =>
    rw [List.foldl_cons, ih (init + f a), List.map_cons, List.sum_cons, add_assoc]

theorem foldl_add_ite_eq_sum (f : ℕ → Vec2) (i : ℕ) (l : List ℕ) (init : Vec2) :
    l.foldl (fun acc j => if i ≠ j then acc + f j else acc) init
      = init + (l.map (fun j => if i ≠ j then f j else 0)).sum := by
  have h : (fun (acc : Vec2) j => if i ≠ j then acc + f j else acc)
      = fun (acc : Vec2) j => acc + (if i ≠ j then f j else 0) := by
    funext acc j; split_ifs <;> simp
  rw [h, foldl_add_eq_sum]

theorem sum_map_listRange (g : ℕ → Vec2) (n : ℕ) :
    ((List.range n).map g).sum = Finset.sum (Finset.range n) g := by
  induction n with
  | zero => simp
  | succ n ih => rw [List.range_succ]; simp [ih, Finset.sum_range_succ]

theorem sum_ite_ne_eq_sum_erase (n i : ℕ) (f : ℕ → Vec2) :
    Finset.sum (Finset.range n) (fun j => if i ≠ j then f j else 0)
      = Finset.sum ((Finset.range n).erase i) f := by
  rw [← Finset.filter_ne (Finset.range n) i, Finset.sum_filter]

theorem GravityGrid.isValidGridPoint_iff (g : GravityGrid) (gx gy : ℤ) :
    g.isValidGridPoint gx gy = true ↔
      (0 ≤ gx ∧ gx ≤ g.gridWidth - 1 ∧ 0 ≤ gy ∧ gy ≤ g.gridHeight - 1) := by
  simp only [isValidGridPoint, Bool.and_eq_true, decide_eq_true_eq]
  omega

theorem GravityGrid.create_gridWidth_pos (w h : ℝ) (r : ℤ) :
    0 < (GravityGrid.create w h r).gridWidth := by
  simp only [GravityGrid.create]
  exact lt_of_lt_of_le (by norm_num) (le_max_right _ _)

theorem GravityGrid.create_gridHeight_pos (w h : ℝ) (r : ℤ) :
    0 < (GravityGrid.create w h r).gridHeight := by
  simp only [GravityGrid.create]
  exact lt_of_lt_of_le (by norm_num) (le_max_right _ _)

theorem GravitySimulation.foldl_addBody_fields (l : List GravityBody) :
    ∀ s : GravitySimulation,
      (l.foldl GravitySimulation.addBody s).bodies = s.bodies ++ l ∧
      (l.foldl GravitySimulation.addBody s).worldWidth = s.worldWidth ∧
      (l.foldl GravitySimulation.addBody s).worldHeight = s.worldHeight ∧
      (l.foldl GravitySimulation.addBody s).gravitationalConstant
        = s.gravitationalConstant := by
  induction l with
  | nil => intro s; simp
  | cons a t ih =>
    intro s
    obtain ⟨h1, h2, h3, h4⟩ := ih (s.addBody a)
    rw [List.foldl_cons]
    refine ⟨?_, ?_, ?_, ?_⟩
    · rw [h1]; simp [GravitySimulation.addBody]
    · rw [h2]; rfl
    · rw [h3]; rfl
    · rw [h4]; rfl

theorem GravitySimulation.defaultBodies_length (w h g : ℝ) :
    (GravitySimulation.defaultBodies w h g).length = 7 := by
  simp [GravitySimulation.defaultBodies]

theorem GravitySimulation.initDefault_bodies (s : GravitySimulation) :
    s.initDefault.bodies = s.bodies ++
      GravitySimulation.defaultBodies s.worldWidth s.worldHeight
        s.gravitationalConstant :=
  (GravitySimulation.foldl_addBody_fields _ s).1

theorem GravitySimulation.initDefault_world (s : GravitySimulation) :
    s.initDefault.worldWidth = s.worldWidth ∧
    s.initDefault.worldHeight = s.worldHeight ∧
    s.initDefault.gravitationalConstant = s.gravitationalConstant :=
  ⟨(GravitySimulation.foldl_addBody_fields _ s).2.1,
   (GravitySimulation.foldl_addBody_fields _ s).2.2.1,
   (GravitySimulation.foldl_addBody_fields _ s).2.2.2⟩

/-- C8, counterexample: the constructor does not reject a non-positive
mass; it produces a body carrying mass -5. -/
theorem C8_counterexample :
    (GravityBody.create ⟨0, 0⟩ (-5) 5).mass = -5 ∧ ((-5 : ℝ) ≤ 0) :=
  ⟨rfl, by norm_num⟩

/-- C8 (amended): constructing a body with mass ≤ 0 is not rejected: the
constructor stores the mass exactly as given, and velocity integration
(`applyForce`) goes on to divide the force by that stored mass. -/
theorem C8_mass_stored_unvalidated (position : Vec2) (mass radius : ℝ)
    (_h : mass ≤ 0) :
    (GravityBody.create position mass radius).mass = mass ∧
    (∀ (force : Vec2) (dt : ℝ),
      ((GravityBody.create position mass radius).applyForce force dt).velocity
        = ((⟨0, 0⟩ : Vec2) + (force / mass) * dt) * (0.9999 : ℝ)) :=
  ⟨rfl, fun _ _ => rfl⟩

/-- C8 witness: the amended theorem applied at mass -5. -/
theorem C8_witness :
    ((-5 : ℝ) ≤ 0) ∧ (GravityBody.create ⟨0, 0⟩ (-5) 5).mass = -5 :=
  ⟨by norm_num, (C8_mass_stored_unvalidated ⟨0, 0⟩ (-5) 5 (by norm_num)).1⟩

/-- C9: an out-of-range grid query returns the zero vector and zero
magnitude; an in-range query returns the stored cell value and its
magnitude. -/
theorem C9_grid_query_sentinel (g : GravityGrid) (gridX gridY : ℤ) :
    (¬ (0 ≤ gridX ∧ gridX ≤ g.gridWidth - 1 ∧
        0 ≤ gridY ∧ gridY ≤ g.gridHeight - 1) →
      g.getForceAtGridPoint gridX gridY = ⟨0, 0⟩ ∧
      g.getForceMagnitudeAtGridPoint gridX gridY = 0) ∧
    ((0 ≤ gridX ∧ gridX ≤ g.gridWidth - 1 ∧
        0 ≤ gridY ∧ gridY ≤ g.gridHeight - 1) →
      g.getForceAtGridPoint gridX gridY = g.forces gridY gridX ∧
      g.getForceMagnitudeAtGridPoint gridX gridY
        = (g.forces gridY gridX).magnitude) := by
  constructor
  · intro h
    have hv : g.isValidGridPoint gridX gridY = false :=
      Bool.eq_false_iff.mpr
        (fun ht => h ((GravityGrid.isValidGridPoint_iff g _ _).mp ht))
    simp [GravityGrid.getForceAtGridPoint,
      GravityGrid.getForceMagnitudeAtGridPoint, hv]
  · intro h
    have hv := (GravityGrid.isValidGridPoint_iff g _ _).mpr h
    simp [GravityGrid.getForceAtGridPoint,
      GravityGrid.getForceMagnitudeAtGridPoint, hv]

/-- C9 witness: the theorem applied to a concrete grid at an out-of-range
index and at an in-range index. -/
theorem C9_witness :
    (¬ (0 ≤ (-1 : ℤ) ∧ (-1 : ℤ) ≤ gridExample.gridWidth - 1 ∧
        0 ≤ (0 : ℤ) ∧ (0 : ℤ) ≤ gridExample.gridHeight - 1)) ∧
    gridExample.getForceAtGridPoint (-1) 0 = ⟨0, 0⟩ ∧
    (0 ≤ (2 : ℤ) ∧ (2 : ℤ) ≤ gridExample.gridWidth - 1 ∧
        0 ≤ (3 : ℤ) ∧ (3 : ℤ) ≤ gridExample.gridHeight - 1) ∧
    gridExample.getForceAtGridPoint 2 3 = gridExample.forces 3 2 :=
  ⟨by decide,
   ((C9_grid_query_sentinel gridExample (-1) 0).1 (by decide)).1,
   by decide,
   ((C9_grid_query_sentinel gridExample 2 3).2 (by decide)).1⟩

/-- C10: `initialize` appends the 7-body default set to the current body
collection without clearing it first: a fresh simulation ends with 7
bodies, a second call yields 14, and all previously present bodies stay
(as a prefix of the new collection). -/
theorem C10_init_appends_defaults :
    (∀ s : GravitySimulation, s.initDefault.bodies = s.bodies ++
      GravitySimulation.defaultBodies s.worldWidth s.worldHeight
        s.gravitationalConstant) ∧
    (∀ s : GravitySimulation,
      s.initDefault.bodies.length = s.bodies.length + 7) ∧
    (∀ (w h : ℝ) (r : ℤ),
      ((GravitySimulation.create w h r).initDefault).bodies.length = 7) ∧
    (∀ s : GravitySimulation,
      s.initDefault.initDefault.bodies.length = s.bodies.length + 14) := by
  have hlen : ∀ s : GravitySimulation,
      s.initDefault.bodies.length = s.bodies.length + 7 := by
    intro s
    rw [GravitySimulation.initDefault_bodies, List.length_append,
      GravitySimulation.defaultBodies_length]
  refine ⟨fun s => GravitySimulation.initDefault_bodies s, hlen, ?_, ?_⟩
  · intro w h r
    rw [hlen]
    simp [GravitySimulation.create]
  · intro s
    rw [hlen, hlen]

theorem Vec2.zero_add_eq (v : Vec2) : Vec2.zero + v = v := zero_add v

theorem normalized_smul_magnitude_le (v : Vec2) (s c : ℝ) (h0 : 0 ≤ s)
    (hc : s ≤ c) : (v.normalized * s).magnitude ≤ c := by
  rw [Vec2.magnitude_smul, abs_of_nonneg h0]
  calc v.normalized.magnitude * s ≤ 1 * s :=
        mul_le_mul_of_nonneg_right (Vec2.magnitude_normalized_le_one v) h0
    _ = s := one_mul s
    _ ≤ c := hc

theorem forceFrom_antisymm (b1 b2 : GravityBody) (G : ℝ) :
    b2.calculateForceFrom b1 G = -(b1.calculateForceFrom b2 G) := by
  simp only [GravityBody.calculateForceFrom]
  rw [Vec2.sub_eq_neg_sub b1.position b2.position, Vec2.magnitudeSquared_neg,
    Vec2.normalized_neg, Vec2.neg_smul_eq]
  congr 2
  ring_nf

theorem forceFrom_coincident (b1 b2 : GravityBody) (G : ℝ)
    (h : b1.position = b2.position) :
    b1.calculateForceFrom b2 G = ⟨0, 0⟩ := by
  simp only [GravityBody.calculateForceFrom]
  have hdir : b2.position - b1.position = ⟨0, 0⟩ := by
    rw [h]; simp [Vec2.ext_iff]
  rw [hdir]
  have hn : (⟨0, 0⟩ : Vec2).normalized = ⟨0, 0⟩ := by
    rw [Vec2.normalized_eq, Vec2.magnitude_mk_zero_zero]; norm_num
  rw [hn]
  simp [Vec2.ext_iff]

theorem forceFrom_eval_axis (m1 m2 r1 r2 G : ℝ) :
    (GravityBody.create ⟨0, 0⟩ m1 r1).calculateForceFrom
        (GravityBody.create ⟨10, 0⟩ m2 r2) G
      = ⟨min (G * m1 * m2 / 100) 5000, 0⟩ := by
  simp only [GravityBody.calculateForceFrom, GravityBody.create]
  have hdir : (⟨10, 0⟩ : Vec2) - (⟨0, 0⟩ : Vec2) = ⟨10, 0⟩ := by
    simp [Vec2.ext_iff]
  have hms : (⟨10, 0⟩ : Vec2).magnitudeSquared = 100 := by
    norm_num [Vec2.magnitudeSquared]
  have hnorm : (⟨10, 0⟩ : Vec2).normalized = ⟨1, 0⟩ := by
    rw [Vec2.normalized_eq, Vec2.magnitude_mk_zero]
    norm_num [Vec2.ext_iff]
  rw [hdir, hms, hnorm]
  norm_num [Vec2.ext_iff]

theorem forceFrom_magnitude_le (b1 b2 : GravityBody) (G : ℝ) (hG : 0 ≤ G)
    (h1 : 0 ≤ b1.mass) (h2 : 0 ≤ b2.mass) :
    (b1.calculateForceFrom b2 G).magnitude ≤ 5000 := by
  simp only [GravityBody.calculateForceFrom]
  apply normalized_smul_magnitude_le _ _ _ _ (min_le_right _ _)
  refine le_min ?_ (by norm_num)
  apply div_nonneg (mul_nonneg (mul_nonneg hG h1) h2)
  split_ifs with hsep
  · norm_num
  · exact le_trans (by norm_num) (not_lt.mp hsep)

theorem gravForce_magnitude_le (b : GravityBody) (point : Vec2) (G : ℝ)
    (hG : 0 ≤ G) (hm : 0 ≤ b.mass) :
    (b.calculateGravitationalForce point G).magnitude ≤ 1000 := by
  simp only [GravityBody.calculateGravitationalForce]
  apply normalized_smul_magnitude_le _ _ _ _ (min_le_right _ _)
  refine le_min ?_ (by norm_num)
  apply div_nonneg (mul_nonneg hG hm)
  split_ifs with hsep
  · norm_num
  · exact le_trans (by norm_num) (not_lt.mp hsep)

/-- C4, counterexample: two coincident bodies (masses 10, G = 100) get a
force of magnitude 0, while the same pair at the minimum separation of 10
units gets magnitude G·m1·m2/100 = 100; the claim demands the coincident
magnitude equal the min-separation one. -/
theorem C4_counterexample :
    ((GravityBody.create ⟨0, 0⟩ 10 5).calculateForceFrom
        (GravityBody.create ⟨0, 0⟩ 10 5) 100).magnitude = 0 ∧
    ((GravityBody.create ⟨0, 0⟩ 10 5).calculateForceFrom
        (GravityBody.create ⟨10, 0⟩ 10 5) 100).magnitude = 100 ∧
    ((0 : ℝ) ≠ 100) := by
  refine ⟨?_, ?_, by norm_num⟩
  · rw [forceFrom_coincident _ _ _ rfl, Vec2.magnitude_mk_zero_zero]
  · rw [forceFrom_eval_axis]
    have hmin : min ((100 : ℝ) * 10 * 10 / 100) 5000 = 100 := by norm_num
    rw [hmin, Vec2.magnitude_mk_zero]
    norm_num

/-- C4 (amended): two bodies at the same position produce a finite force —
the zero vector, of magnitude 0 — because the zero separation direction
normalizes to the zero vector; the internally clamped scalar (the force at
the 10-unit minimum separation) is multiplied by that zero direction, so
the returned magnitude is 0, not G·m1·m2/100. -/
theorem C4_coincident_force_zero (b1 b2 : GravityBody) (G : ℝ)
    (h : b1.position = b2.position) :
    b1.calculateForceFrom b2 G = ⟨0, 0⟩ ∧
    (b1.calculateForceFrom b2 G).magnitude = 0 := by
  have hz := forceFrom_coincident b1 b2 G h
  exact ⟨hz, by rw [hz, Vec2.magnitude_mk_zero_zero]⟩

/-- C4 witness: the amended theorem applied to two concrete coincident
bodies. -/
theorem C4_witness :
    (GravityBody.create ⟨0, 0⟩ 10 5).position
        = (GravityBody.create ⟨0, 0⟩ 20 5).position ∧
    (GravityBody.create ⟨0, 0⟩ 10 5).calculateForceFrom
        (GravityBody.create ⟨0, 0⟩ 20 5) 100 = ⟨0, 0⟩ :=
  ⟨rfl, (C4_coincident_force_zero (GravityBody.create ⟨0, 0⟩ 10 5)
    (GravityBody.create ⟨0, 0⟩ 20 5) 100 rfl).1⟩

/-- C5, counterexample: with a negative gravitational constant the scalar
clamp `min(fm, 5000)` keeps the (large negative) value, and the returned
vector's magnitude is 10000 > 5000: the cap does not hold for every
gravitational constant. -/
theorem C5_counterexample :
    (5000 : ℝ) < ((GravityBody.create ⟨0, 0⟩ 1 5).calculateForceFrom
        (GravityBody.create ⟨10, 0⟩ 1 5) (-1000000)).magnitude := by
  rw [forceFrom_eval_axis]
  have hmin : min ((-1000000 : ℝ) * 1 * 1 / 100) 5000 = -10000 := by norm_num
  rw [hmin, Vec2.magnitude_mk_zero]
  norm_num

/-- C5 (amended): for a nonnegative gravitational constant and nonnegative
masses — arbitrarily large, and at arbitrarily small separations — the
body-body force magnitude never exceeds 5000 and the body-point force
magnitude never exceeds 1000; a negative gravitational constant escapes
both caps (see the counterexample). -/
theorem C5_force_caps (b1 b2 : GravityBody) (point : Vec2) (G : ℝ)
    (hG : 0 ≤ G) (h1 : 0 ≤ b1.mass) (h2 : 0 ≤ b2.mass) :
    (b1.calculateForceFrom b2 G).magnitude ≤ 5000 ∧
    (b1.calculateGravitationalForce point G).magnitude ≤ 1000 :=
  ⟨forceFrom_magnitude_le b1 b2 G hG h1 h2,
   gravForce_magnitude_le b1 point G hG h1⟩

/-- C5 witness: the caps at two concrete coincident heavy bodies with
G = 80. -/
theorem C5_witness :
    (0 : ℝ) ≤ 80 ∧
    (0 : ℝ) ≤ (GravityBody.create ⟨0, 0⟩ 100000 5).mass ∧
    ((GravityBody.create ⟨0, 0⟩ 100000 5).calculateForceFrom
        (GravityBody.create ⟨0, 0⟩ 100000 5) 80).magnitude ≤ 5000 ∧
    ((GravityBody.create ⟨0, 0⟩ 100000 5).calculateGravitationalForce
        ⟨0, 0⟩ 80).magnitude ≤ 1000 :=
  ⟨by norm_num, by norm_num [GravityBody.create],
   (C5_force_caps (GravityBody.create ⟨0, 0⟩ 100000 5)
      (GravityBody.create ⟨0, 0⟩ 100000 5) ⟨0, 0⟩ 80 (by norm_num)
      (by norm_num [GravityBody.create]) (by norm_num [GravityBody.create])).1,
   (C5_force_caps (GravityBody.create ⟨0, 0⟩ 100000 5)
      (GravityBody.create ⟨0, 0⟩ 100000 5) ⟨0, 0⟩ 80 (by norm_num)
      (by norm_num [GravityBody.create]) (by norm_num [GravityBody.create])).2⟩

/-- C6: Newton's third law holds exactly, distance clamp included:
`A.calculateForceFrom(B, G)` and `B.calculateForceFrom(A, G)` sum to the
zero vector (exact negation, hence opposite directions) and have equal
magnitudes. -/
theorem C6_newton_third_law (b1 b2 : GravityBody) (G : ℝ) :
    b1.calculateForceFrom b2 G + b2.calculateForceFrom b1 G = Vec2.zero ∧
    (b1.calculateForceFrom b2 G).magnitude
      = (b2.calculateForceFrom b1 G).magnitude := by
  have h := forceFrom_antisymm b1 b2 G
  constructor
  · rw [h]; simp [Vec2.ext_iff, Vec2.zero]
  · rw [h, Vec2.magnitude_neg]

/-- C3 (amended): `addBody` and `clearBodies` mark the grid stale
(`needsGridUpdate := true`), but no grid read consults the flag or
triggers a resample: the exposed grid object is returned unchanged, so a
reader observes the values of the last resample until the next `update`
or `initialize` call. -/
theorem C3_mutators_mark_stale_reads_no_resample :
    ∀ (s : GravitySimulation) (b : GravityBody),
      (s.addBody b).needsGridUpdate = true ∧
      s.clearBodies.needsGridUpdate = true ∧
      (s.addBody b).getGravityGrid = s.getGravityGrid ∧
      s.clearBodies.getGravityGrid = s.getGravityGrid :=
  fun _ _ => ⟨rfl, rfl, rfl, rfl⟩

theorem gravForce_eval_axis (m r G : ℝ) :
    (GravityBody.create ⟨10, 0⟩ m r).calculateGravitationalForce ⟨0, 0⟩ G
      = ⟨min (G * m / 100) 1000, 0⟩ := by
  simp only [GravityBody.calculateGravitationalForce, GravityBody.create]
  have hdir : (⟨10, 0⟩ : Vec2) - (⟨0, 0⟩ : Vec2) = ⟨10, 0⟩ := by
    simp [Vec2.ext_iff]
  have hms : (⟨10, 0⟩ : Vec2).magnitudeSquared = 100 := by
    norm_num [Vec2.magnitudeSquared]
  have hnorm : (⟨10, 0⟩ : Vec2).normalized = ⟨1, 0⟩ := by
    rw [Vec2.normalized_eq, Vec2.magnitude_mk_zero]
    norm_num [Vec2.ext_iff]
  rw [hdir, hms, hnorm]
  norm_num [Vec2.ext_iff]

/-- C3, counterexample: in a concrete simulation whose grid was never
resampled after `addBody`, the grid read at cell (0, 0) returns the stale
zero vector, while the value consistent with the current body set (the
vector sum of the bodies' forces at that cell's world position) is
⟨80, 0⟩: the read neither triggered a resample nor found one already
run. -/
theorem C3_counterexample :
    staleSim.getGravityGrid.getForceAtGridPoint 0 0 = ⟨0, 0⟩ ∧
    (staleSim.bodies.map (fun b =>
        b.calculateGravitationalForce (staleSim.getGravityGrid.gridToWorld 0 0)
          staleSim.gravitationalConstant)).sum = ⟨80, 0⟩ ∧
    ((⟨0, 0⟩ : Vec2) ≠ (⟨80, 0⟩ : Vec2)) := by
  have hgrid : staleSim.getGravityGrid = GravityGrid.create 800 600 20 := rfl
  have hw := GravityGrid.create_gridWidth_pos 800 600 20
  have hh := GravityGrid.create_gridHeight_pos 800 600 20
  have hv : (GravityGrid.create 800 600 20).isValidGridPoint 0 0 = true :=
    (GravityGrid.isValidGridPoint_iff _ _ _).mpr
      ⟨le_refl 0, by omega, le_refl 0, by omega⟩
  refine ⟨?_, ?_, ?_⟩
  · rw [hgrid]
    simp [GravityGrid.getForceAtGridPoint, hv, GravityGrid.create, Vec2.zero]
  · have hbodies : staleSim.bodies = [GravityBody.create ⟨10, 0⟩ 100 5] := rfl
    have hpt : staleSim.getGravityGrid.gridToWorld 0 0 = ⟨0, 0⟩ := by
      rw [hgrid]
      simp [GravityGrid.gridToWorld, Vec2.ext_iff]
    have hG : staleSim.gravitationalConstant = 80 := rfl
    rw [hbodies, hpt, hG]
    simp only [List.map_cons, List.map_nil, List.sum_cons, List.sum_nil,
      add_zero]
    rw [gravForce_eval_axis]
    norm_num [Vec2.ext_iff]
  · intro hcontra
    rw [Vec2.ext_iff] at hcontra
    norm_num at hcontra

theorem handleBoundary_eq (wW wH : ℝ) (b : GravityBody) :
    GravitySimulation.handleBoundary wW wH b = { b with
      position :=
        ⟨if b.position.x < 0 ∨ b.position.x > wW
            then max 0 (min wW b.position.x) else b.position.x,
         if b.position.y < 0 ∨ b.position.y > wH
            then max 0 (min wH b.position.y) else b.position.y⟩,
      velocity :=
        ⟨if b.position.x < 0 ∨ b.position.x > wW
            then -b.velocity.x * 0.8 else b.velocity.x,
         if b.position.y < 0 ∨ b.position.y > wH
            then -b.velocity.y * 0.8 else b.velocity.y⟩ } := rfl

theorem handleBoundary_in_bounds (wW wH : ℝ) (hW : 0 ≤ wW) (hH : 0 ≤ wH)
    (b : GravityBody) :
    0 ≤ (GravitySimulation.handleBoundary wW wH b).position.x ∧
    (GravitySimulation.handleBoundary wW wH b).position.x ≤ wW ∧
    0 ≤ (GravitySimulation.handleBoundary wW wH b).position.y ∧
    (GravitySimulation.handleBoundary wW wH b).position.y ≤ wH := by
  rw [handleBoundary_eq]
  refine ⟨?_, ?_, ?_, ?_⟩
  · dsimp only
    split_ifs with h
    · exact le_max_left 0 _
    · push_neg at h; exact h.1
  · dsimp only
    split_ifs with h
    · exact max_le hW (min_le_left _ _)
    · push_neg at h; exact h.2
  · dsimp only
    split_ifs with h
    · exact le_max_left 0 _
    · push_neg at h; exact h.1
  · dsimp only
    split_ifs with h
    · exact max_le hH (min_le_left _ _)
    · push_neg at h; exact h.2

/-- C7: inside `update(dt)`, a body whose integrated position leaves the
world on an axis has the velocity component on that axis replaced by its
negation times 0.8 and the position on that axis clamped back into range;
the post-bounce axis speed is strictly smaller than the pre-bounce one
when that axis velocity is nonzero; and (for nonnegative world extents)
every body ends the update inside the world bounds. -/
theorem C7_boundary_bounce :
    (∀ (wW wH : ℝ) (b : GravityBody),
      (b.position.x < 0 ∨ b.position.x > wW) →
        (GravitySimulation.handleBoundary wW wH b).velocity.x
            = -b.velocity.x * 0.8 ∧
        (GravitySimulation.handleBoundary wW wH b).position.x
            = max 0 (min wW b.position.x) ∧
        (b.velocity.x ≠ 0 →
          |(GravitySimulation.handleBoundary wW wH b).velocity.x|
            < |b.velocity.x|)) ∧
    (∀ (wW wH : ℝ) (b : GravityBody),
      (b.position.y < 0 ∨ b.position.y > wH) →
        (GravitySimulation.handleBoundary wW wH b).velocity.y
            = -b.velocity.y * 0.8 ∧
        (GravitySimulation.handleBoundary wW wH b).position.y
            = max 0 (min wH b.position.y) ∧
        (b.velocity.y ≠ 0 →
          |(GravitySimulation.handleBoundary wW wH b).velocity.y|
            < |b.velocity.y|)) ∧
    (∀ (s : GravitySimulation) (dt : ℝ),
      0 ≤ s.worldWidth → 0 ≤ s.worldHeight →
      ∀ b ∈ (s.update dt).bodies,
        0 ≤ b.position.x ∧ b.position.x ≤ s.worldWidth ∧
        0 ≤ b.position.y ∧ b.position.y ≤ s.worldHeight) := by
  have hdamp : ∀ v : ℝ, v ≠ 0 → |(-v * 0.8 : ℝ)| < |v| := by
    intro v hv
    rw [abs_mul, abs_neg]
    have habs : (0 : ℝ) < |v| := abs_pos.mpr hv
    rw [abs_of_nonneg (by norm_num : (0 : ℝ) ≤ 0.8)]
    nlinarith
  refine ⟨?_, ?_, ?_⟩
  · intro wW wH b hx
    rw [handleBoundary_eq]
    refine ⟨by dsimp only; rw [if_pos hx], by dsimp only; rw [if_pos hx], ?_⟩
    intro hv
    dsimp only
    rw [if_pos hx]
    exact hdamp _ hv
  · intro wW wH b hy
    rw [handleBoundary_eq]
    refine ⟨by dsimp only; rw [if_pos hy], by dsimp only; rw [if_pos hy], ?_⟩
    intro hv
    dsimp only
    rw [if_pos hy]
    exact hdamp _ hv
  · intro s dt hW hH b hb
    have hb2 : b ∈ (s.updateBodies dt).bodies := hb
    simp only [GravitySimulation.updateBodies, List.mem_map] at hb2
    obtain ⟨bf, _, rfl⟩ := hb2
    exact handleBoundary_in_bounds s.worldWidth s.worldHeight hW hH _

theorem GravityGrid.updateGrid_cell (g : GravityGrid) (bs : List GravityBody)
    (G : ℝ) (gx gy : ℤ) (hv : g.isValidGridPoint gx gy = true) :
    (g.updateGrid bs G).getForceAtGridPoint gx gy
      = (bs.map (fun b =>
          b.calculateGravitationalForce (g.gridToWorld gx gy) G)).sum := by
  have hval2 : (g.updateGrid bs G).isValidGridPoint gx gy = true := hv
  have hforce : (g.updateGrid bs G).forces gy gx
      = if g.isValidGridPoint gx gy then
          bs.foldl (fun acc b =>
            acc + b.calculateGravitationalForce (g.gridToWorld gx gy) G)
            Vec2.zero
        else g.forces gy gx := rfl
  have hget : (g.updateGrid bs G).getForceAtGridPoint gx gy
      = (g.updateGrid bs G).forces gy gx := by
    simp only [GravityGrid.getForceAtGridPoint]
    rw [if_pos hval2]
  rw [hget, hforce, if_pos hv, foldl_add_eq_sum, Vec2.zero_add_eq]

theorem GravityGrid.create_isValid_zero_zero (w h : ℝ) (r : ℤ) :
    (GravityGrid.create w h r).isValidGridPoint 0 0 = true :=
  (GravityGrid.isValidGridPoint_iff _ _ _).mpr
    ⟨le_refl 0,
     by have := GravityGrid.create_gridWidth_pos w h r; omega,
     le_refl 0,
     by have := GravityGrid.create_gridHeight_pos w h r; omega⟩

/-- C2: after `update(dt)`, every in-range grid cell holds exactly the
vector sum, over all bodies now in the simulation, of each body's
`calculateGravitationalForce` at the cell's world position with the
current gravitational constant. -/
theorem C2_grid_consistent_after_update (s : GravitySimulation) (dt : ℝ)
    (gx gy : ℤ)
    (h : (s.update dt).gravityGrid.isValidGridPoint gx gy = true) :
    (s.update dt).gravityGrid.getForceAtGridPoint gx gy
      = ((s.update dt).bodies.map (fun b =>
          b.calculateGravitationalForce
            ((s.update dt).gravityGrid.gridToWorld gx gy)
            (s.update dt).gravitationalConstant)).sum := by
  have hv : s.gravityGrid.isValidGridPoint gx gy = true := h
  exact GravityGrid.updateGrid_cell s.gravityGrid (s.updateBodies dt).bodies
    s.gravitationalConstant gx gy hv

/-- C2 witness: the grid consistency equation at cell (0, 0) of a concrete
updated simulation. -/
theorem C2_witness :
    ((GravitySimulation.create 800 600 20).update 1).gravityGrid.isValidGridPoint
        0 0 = true ∧
    ((GravitySimulation.create 800 600 20).update 1).gravityGrid.getForceAtGridPoint
        0 0
      = (((GravitySimulation.create 800 600 20).update 1).bodies.map (fun b =>
          b.calculateGravitationalForce
            (((GravitySimulation.create 800 600 20).update 1).gravityGrid.gridToWorld
              0 0)
            ((GravitySimulation.create 800 600 20).update 1).gravitationalConstant)).sum := by
  have hval : ((GravitySimulation.create 800 600 20).update
      1).gravityGrid.isValidGridPoint 0 0 = true :=
    GravityGrid.create_isValid_zero_zero 800 600 20
  exact ⟨hval,
    C2_grid_consistent_after_update (GravitySimulation.create 800 600 20) 1 0 0 hval⟩

theorem getD_irrel {α : Type} (l : List α) (i : ℕ) (h : i < l.length)
    (d1 d2 : α) : l.getD i d1 = l.getD i d2 := by
  simp [List.getD_eq_getElem?_getD, List.getElem?_eq_getElem h]

/-- C7 witness: a body at x = -5 moving with nonzero axis velocities,
bounced by `handleBoundary`, and a concrete simulation whose updated
bodies all lie inside the 800×600 world. -/
theorem C7_witness :
    ((⟨⟨-5, 3⟩, ⟨2, 7⟩, 1, 1⟩ : GravityBody).position.x < 0 ∨
      (⟨⟨-5, 3⟩, ⟨2, 7⟩, 1, 1⟩ : GravityBody).position.x > 800) ∧
    (⟨⟨-5, 3⟩, ⟨2, 7⟩, 1, 1⟩ : GravityBody).velocity.x ≠ 0 ∧
    (0 : ℝ) ≤ 800 ∧ (0 : ℝ) ≤ 600 ∧
    (GravitySimulation.handleBoundary 800 600
        (⟨⟨-5, 3⟩, ⟨2, 7⟩, 1, 1⟩ : GravityBody)).velocity.x
      = -(⟨⟨-5, 3⟩, ⟨2, 7⟩, 1, 1⟩ : GravityBody).velocity.x * 0.8 ∧
    |(GravitySimulation.handleBoundary 800 600
        (⟨⟨-5, 3⟩, ⟨2, 7⟩, 1, 1⟩ : GravityBody)).velocity.x|
      < |(⟨⟨-5, 3⟩, ⟨2, 7⟩, 1, 1⟩ : GravityBody).velocity.x| ∧
    (∀ b ∈ ((staleSim.update 1).bodies),
      0 ≤ b.position.x ∧ b.position.x ≤ staleSim.worldWidth ∧
      0 ≤ b.position.y ∧ b.position.y ≤ staleSim.worldHeight) := by
  have hx : ((⟨⟨-5, 3⟩, ⟨2, 7⟩, 1, 1⟩ : GravityBody).position.x < 0 ∨
      (⟨⟨-5, 3⟩, ⟨2, 7⟩, 1, 1⟩ : GravityBody).position.x > 800) := by
    left; norm_num
  have hv : (⟨⟨-5, 3⟩, ⟨2, 7⟩, 1, 1⟩ : GravityBody).velocity.x ≠ 0 := by
    norm_num
  have h1 := C7_boundary_bounce.1 800 600 (⟨⟨-5, 3⟩, ⟨2, 7⟩, 1, 1⟩ : GravityBody) hx
  exact ⟨hx, hv, by norm_num, by norm_num, h1.1, h1.2.2 hv,
    C7_boundary_bounce.2.2 staleSim 1 (by norm_num [staleSim,
      GravitySimulation.addBody, GravitySimulation.create])
      (by norm_num [staleSim, GravitySimulation.addBody,
        GravitySimulation.create])⟩

theorem netForces_getElem (s : GravitySimulation) (i : ℕ)
    (h : i < s.bodies.length) :
    (GravitySimulation.netForces s.bodies s.gravitationalConstant)[i]?
      = some ((List.range s.bodies.length).foldl
          (fun acc j => if i ≠ j then
            acc + (GravitySimulation.bodyAt s.bodies i).calculateForceFrom
              (GravitySimulation.bodyAt s.bodies j) s.gravitationalConstant
          else acc) Vec2.zero) := by
  simp only [GravitySimulation.netForces]
  rw [List.getElem?_map, List.getElem?_range h]
  rfl

/-- C1: one `update(dt)` call computes, for each body index i, the sum of
the pairwise forces `calculateForceFrom` against every other index j ≠ i,
all read from the body list as it was at the start of the step, and only
then produces body i by `applyForce` (velocity integration) followed by
`updatePosition` (position integration) with that accumulated force (and
the boundary policy of the same loop). -/
theorem C1_forces_first_then_integration (s : GravitySimulation) (dt : ℝ)
    (d0 : GravityBody) (i : ℕ) (h : i < s.bodies.length) :
    (s.update dt).bodies[i]? = some
      (GravitySimulation.handleBoundary s.worldWidth s.worldHeight
        (((s.bodies.getD i d0).applyForce
            (Finset.sum ((Finset.range s.bodies.length).erase i) (fun j =>
              (s.bodies.getD i d0).calculateForceFrom (s.bodies.getD j d0)
                s.gravitationalConstant)) dt).updatePosition dt)) := by
  have hub : (s.update dt).bodies
      = (s.bodies.zip
          (GravitySimulation.netForces s.bodies s.gravitationalConstant)).map
        (fun bf => GravitySimulation.handleBoundary s.worldWidth s.worldHeight
          ((bf.1.applyForce bf.2 dt).updatePosition dt)) := rfl
  have hbody : s.bodies[i]? = some (s.bodies.getD i d0) := by
    simp [List.getD_eq_getElem?_getD, List.getElem?_eq_getElem h]
  have hnf := netForces_getElem s i h
  have hzip : (s.bodies.zip
      (GravitySimulation.netForces s.bodies s.gravitationalConstant))[i]?
      = some (s.bodies.getD i d0,
          (List.range s.bodies.length).foldl
            (fun acc j => if i ≠ j then
              acc + (GravitySimulation.bodyAt s.bodies i).calculateForceFrom
                (GravitySimulation.bodyAt s.bodies j) s.gravitationalConstant
            else acc) Vec2.zero) :=
    List.getElem?_zip_eq_some.mpr ⟨hbody, hnf⟩
  rw [hub, List.getElem?_map, hzip]
  have hF : (List.range s.bodies.length).foldl
      (fun acc j => if i ≠ j then
        acc + (GravitySimulation.bodyAt s.bodies i).calculateForceFrom
          (GravitySimulation.bodyAt s.bodies j) s.gravitationalConstant
      else acc) Vec2.zero
      = Finset.sum ((Finset.range s.bodies.length).erase i) (fun j =>
          (s.bodies.getD i d0).calculateForceFrom (s.bodies.getD j d0)
            s.gravitationalConstant) := by
    rw [foldl_add_ite_eq_sum (fun j =>
        (GravitySimulation.bodyAt s.bodies i).calculateForceFrom
          (GravitySimulation.bodyAt s.bodies j) s.gravitationalConstant)
        i (List.range s.bodies.length) Vec2.zero,
      Vec2.zero_add_eq, sum_map_listRange, sum_ite_ne_eq_sum_erase]
    apply Finset.sum_congr rfl
    intro j hj
    have hj2 : j < s.bodies.length :=
      Finset.mem_range.mp (Finset.mem_of_mem_erase hj)
    rw [GravitySimulation.bodyAt, GravitySimulation.bodyAt,
      getD_irrel s.bodies i h _ d0, getD_irrel s.bodies j hj2 _ d0]
  rw [hF]
  rfl

/-- C1 witness: the per-index characterisation applied at index 0 of a
concrete one-body simulation. -/
theorem C1_witness :
    0 < staleSim.bodies.length ∧
    (staleSim.update 1).bodies[0]? = some
      (GravitySimulation.handleBoundary staleSim.worldWidth staleSim.worldHeight
        (((staleSim.bodies.getD 0 (GravityBody.create ⟨0, 0⟩ 1 1)).applyForce
            (Finset.sum ((Finset.range staleSim.bodies.length).erase 0) (fun j =>
              (staleSim.bodies.getD 0
                  (GravityBody.create ⟨0, 0⟩ 1 1)).calculateForceFrom
                (staleSim.bodies.getD j (GravityBody.create ⟨0, 0⟩ 1 1))
                staleSim.gravitationalConstant)) 1).updatePosition 1)) :=
  ⟨by decide,
   C1_forces_first_then_integration staleSim 1
     (GravityBody.create ⟨0, 0⟩ 1 1) 0 (by decide)⟩
